import Mathlib

/-!
Verification of the error-classification and offline-retry-queue logic of the
perksmania mobile merchant app.

Part 1 embeds the error analysis module of `src/types/transactions.ts`
(`ErrorType`, `ErrorSeverity`, `NETWORK_ERROR_PATTERNS`, `TIMEOUT_ERROR_PATTERNS`,
`USER_FRIENDLY_MESSAGES`, `analyzeError`, `isNetworkError`, `isTimeoutError`,
`shouldQueueForRetry`).

Part 2 embeds the zustand network store (`useNetworkStore`): the retry queue
operations `addToRetryQueue`, `removeFromRetryQueue`, `clearRetryQueue`,
`processRetryQueue`, the getter `getRetryableRequests`, and
`determineConnectionQuality`.

JavaScript runtime values that reach `analyzeError` are modelled by `JSValue`;
the `Date` timestamps are modelled as natural numbers supplied by the caller
(they play no computational role in any claim), and the queued request
closures (`() => Promise<any>`) are modelled by an outcome oracle
`ok : String → Bool` giving, per queue id, whether replaying that request
succeeds during a drain.
-/

namespace Perksmania

/-- `ErrorType` enum of `src/types/transactions.ts`. -/
inductive ErrorType where
  | NETWORK_ERROR
  | TIMEOUT_ERROR
  | SERVER_ERROR
  | AUTHENTICATION_ERROR
  | AUTHORIZATION_ERROR
  | VALIDATION_ERROR
  | NOT_FOUND_ERROR
  | RATE_LIMIT_ERROR
  | UNKNOWN_ERROR
deriving DecidableEq, Repr

/-- `ErrorSeverity` enum of `src/types/transactions.ts`. -/
inductive ErrorSeverity where
  | LOW
  | MEDIUM
  | HIGH
  | CRITICAL
deriving DecidableEq, Repr

/-- `NETWORK_ERROR_PATTERNS` of `src/types/transactions.ts` (all lowercase). -/
def NETWORK_ERROR_PATTERNS : List String :=
  [ "network error",
    "network request failed",
    "failed to fetch",
    "fetch error",
    "connection error",
    "no internet",
    "offline",
    "net::err_internet_disconnected",
    "net::err_name_not_resolved",
    "net::err_network_changed" ]

/-- `TIMEOUT_ERROR_PATTERNS` of `src/types/transactions.ts` (all lowercase). -/
def TIMEOUT_ERROR_PATTERNS : List String :=
  [ "timeout",
    "request timeout",
    "econnaborted",
    "etimedout",
    "request timed out" ]

/-- One entry of the `USER_FRIENDLY_MESSAGES` table. -/
structure FriendlyMessage where
  title : String
  message : String
  action : String
deriving DecidableEq, Repr

/-- `USER_FRIENDLY_MESSAGES` of `src/types/transactions.ts`, as a total map
from `ErrorType` (the table has one entry per enum member). -/
def USER_FRIENDLY_MESSAGES : ErrorType → FriendlyMessage
  | .NETWORK_ERROR =>
      { title := "Connection Issue",
        message := "Unable to connect to the internet. Please check your connection and try again.",
        action := "Retry" }
  | .TIMEOUT_ERROR =>
      { title := "Request Timeout",
        message := "The request is taking too long. Please try again.",
        action := "Retry" }
  | .SERVER_ERROR =>
      { title := "Server Issue",
        message := "Our servers are experiencing issues. Please try again later.",
        action := "Retry" }
  | .AUTHENTICATION_ERROR =>
      { title := "Authentication Required",
        message := "Please sign in to continue.",
        action := "Sign In" }
  | .AUTHORIZATION_ERROR =>
      { title := "Access Denied",
        message := "You don\x27t have permission to access this resource.",
        action := "OK" }
  | .VALIDATION_ERROR =>
      { title := "Invalid Data",
        message := "Please check your input and try again.",
        action := "OK" }
  | .NOT_FOUND_ERROR =>
      { title := "Not Found",
        message := "The requested resource could not be found.",
        action := "OK" }
  | .RATE_LIMIT_ERROR =>
      { title := "Too Many Requests",
        message := "You\x27re making requests too quickly. Please wait a moment and try again.",
        action := "OK" }
  | .UNKNOWN_ERROR =>
      { title := "Something Went Wrong",
        message := "An unexpected error occurred. Please try again.",
        action := "Retry" }

/-- Substring test on character lists: `listStartsWith p l` is true when `p`
is an initial segment of `l`. Models one alignment of JavaScript
`String.prototype.includes`. -/
def listStartsWith : List Char → List Char → Bool
  | [], _ => true
  | _ :: _, [] => false
  | p :: ps, c :: cs => p == c && listStartsWith ps cs

/-- `listContains pat l` is true when `pat` occurs as a contiguous run inside
`l`: the embedding of JavaScript `haystack.includes(pat)` on exploded
strings. -/
def listContains (pat : List Char) : List Char → Bool
  | [] => listStartsWith pat []
  | c :: cs => listStartsWith pat (c :: cs) || listContains pat cs

/-- `message.toLowerCase()` as a character list (the source only ever
lowercases ASCII diagnostics, where JS `toLowerCase` and `Char.toLower`
agree). -/
def lowerChars (s : String) : List Char :=
  s.toList.map Char.toLower

/-- `isNetworkError` of `src/types/transactions.ts`: does the lowercased
message include one of the `NETWORK_ERROR_PATTERNS`? -/
def isNetworkError (message : String) : Bool :=
  NETWORK_ERROR_PATTERNS.any fun pattern => listContains pattern.toList (lowerChars message)

/-- `isTimeoutError` of `src/types/transactions.ts`: does the lowercased
message include one of the `TIMEOUT_ERROR_PATTERNS`? -/
def isTimeoutError (message : String) : Bool :=
  TIMEOUT_ERROR_PATTERNS.any fun pattern => listContains pattern.toList (lowerChars message)

/-- The `response.data` payload, as far as `analyzeError` inspects it:
a string, an object with optional string fields `message` and `error`
(`none` = field absent/undefined), or anything else. -/
inductive ResponseData where
  | str (s : String)
  | fields (message : Option String) (error : Option String)
  | other
deriving DecidableEq, Repr

/-- An axios `response` object: `status` (absent models `undefined`) and
`data`. -/
structure JSResponse where
  status : Option Nat
  data : ResponseData
deriving DecidableEq, Repr

/-- An error object as `analyzeError` probes it: truthiness of
`isAxiosError`, the optional `response`, truthiness of `request`, and the
optional string field `message`. -/
structure JSError where
  isAxiosError : Bool
  response : Option JSResponse
  request : Bool
  message : Option String
deriving DecidableEq, Repr

/-- A JavaScript runtime value passed as the `error` argument of
`analyzeError`: `null`, `undefined`, an error-like object, or a bare
string (a thrown string primitive). -/
inductive JSValue where
  | null
  | undefined
  | obj (e : JSError)
  | str (s : String)
deriving DecidableEq, Repr

/-- The `context` argument of `analyzeError` (`Record<string, any>`),
modelled as an association list of string keys to string renderings. -/
def ErrCtx := List (String × String)
deriving DecidableEq

/-- The `EnhancedError` interface of `src/types/transactions.ts` (the
`originalError` echo and the `Date` timestamp are omitted; neither is read
by any operation under study). -/
structure EnhancedError where
  type : ErrorType
  severity : ErrorSeverity
  message : String
  userMessage : String
  statusCode : Option Nat
  canRetry : Bool
  shouldShowNotification : Bool
  shouldLog : Bool
  context : Option ErrCtx

/-- JavaScript truthiness of an optional string field: present and
non-empty. -/
def truthyStr : Option String → Bool
  | some s => s ≠ ""
  | none => false

/-- `v` if `v` is a truthy string, else the fallback: one link of the
`if (x?.f) msg = x.f; else ...` chains in `analyzeError`. -/
def pickTruthy (v : Option String) (fallback : String) : String :=
  match v with
  | some s => if s = "" then fallback else s
  | none => fallback

/-- `error?.message || error?.toString() || 'Unknown error'` of the
non-axios branch of `analyzeError`. Optional chaining on `null`/`undefined`
yields `undefined` (falsy); `toString` of a plain object is
`"[object Object]"`; `toString` of a string is the string itself. -/
def plainMessage : JSValue → String
  | .null => "Unknown error"
  | .undefined => "Unknown error"
  | .obj e => pickTruthy e.message "[object Object]"
  | .str s => if s = "" then "Unknown error" else s

/-- The `switch (statusCode)` of `analyzeError` for a present numeric status:
resulting `(type, severity, canRetry)`. The `default:` arm leaves the
initial values `UNKNOWN_ERROR`/`MEDIUM`/`true` untouched when the status is
below 400. -/
def respSwitch (s : Nat) : ErrorType × ErrorSeverity × Bool :=
  if s = 400 then (.VALIDATION_ERROR, .LOW, false)
  else if s = 401 then (.AUTHENTICATION_ERROR, .HIGH, false)
  else if s = 403 then (.AUTHORIZATION_ERROR, .MEDIUM, false)
  else if s = 404 then (.NOT_FOUND_ERROR, .LOW, false)
  else if s = 429 then (.RATE_LIMIT_ERROR, .MEDIUM, true)
  else if s = 500 ∨ s = 502 ∨ s = 503 ∨ s = 504 then (.SERVER_ERROR, .HIGH, true)
  else if 500 ≤ s then (.SERVER_ERROR, .HIGH, true)
  else if 400 ≤ s then (.VALIDATION_ERROR, .LOW, false)
  else (.UNKNOWN_ERROR, .MEDIUM, true)

/-- Assemble the returned `EnhancedError`: the final `return` statement of
`analyzeError`, where `userMessage` is always
`USER_FRIENDLY_MESSAGES[type].message` and both notification flags stay at
their initial value `true` (the one write, in the 401 arm, rewrites
`shouldShowNotification` to `true`). -/
def mkEnhanced (t : ErrorType) (sev : ErrorSeverity) (msg : String)
    (statusCode : Option Nat) (canRetry : Bool) (ctx : Option ErrCtx) : EnhancedError :=
  { type := t
    severity := sev
    message := msg
    userMessage := (USER_FRIENDLY_MESSAGES t).message
    statusCode := statusCode
    canRetry := canRetry
    shouldShowNotification := true
    shouldLog := true
    context := ctx }

/-- The branch of `analyzeError` for an axios-like error (truthy
`isAxiosError`, `response` or `request`). -/
def axiosAnalyze (e : JSError) (ctx : Option ErrCtx) : EnhancedError :=
  let msg0 := e.message.getD ""
  match e.response with
  | none =>
    if e.request then
      -- request was made but no response received
      if isNetworkError msg0 then
        mkEnhanced .NETWORK_ERROR .HIGH msg0 none true ctx
      else if isTimeoutError msg0 then
        mkEnhanced .TIMEOUT_ERROR .MEDIUM msg0 none true ctx
      else
        mkEnhanced .NETWORK_ERROR .HIGH msg0 none true ctx
    else
      -- isAxiosError set but neither response nor request: nothing assigns,
      -- the initial defaults flow to the return
      mkEnhanced .UNKNOWN_ERROR .MEDIUM msg0 none true ctx
  | some r =>
    let tsc : ErrorType × ErrorSeverity × Bool :=
      match r.status with
      | some s => respSwitch s
      | none => (.UNKNOWN_ERROR, .MEDIUM, true)
    let msg1 :=
      match r.data with
      | .str s => s
      | .fields m err => pickTruthy m (pickTruthy err msg0)
      | .other => msg0
    mkEnhanced tsc.1 tsc.2.1 msg1 r.status tsc.2.2 ctx

/-- The non-axios branch of `analyzeError`: pattern-match the derived
message, else keep the `UNKNOWN_ERROR`/`MEDIUM`/`canRetry = true`
defaults. -/
def plainAnalyze (msg : String) (ctx : Option ErrCtx) : EnhancedError :=
  if isNetworkError msg then
    mkEnhanced .NETWORK_ERROR .HIGH msg none true ctx
  else if isTimeoutError msg then
    mkEnhanced .TIMEOUT_ERROR .MEDIUM msg none true ctx
  else
    mkEnhanced .UNKNOWN_ERROR .MEDIUM msg none true ctx

/-- `analyzeError` of `src/types/transactions.ts`. -/
def analyzeError (error : JSValue) (ctx : Option ErrCtx) : EnhancedError :=
  match error with
  | .obj e =>
    if e.isAxiosError || e.response.isSome || e.request then
      axiosAnalyze e ctx
    else
      plainAnalyze (plainMessage (.obj e)) ctx
  | v => plainAnalyze (plainMessage v) ctx

/-- `shouldQueueForRetry` of `src/types/transactions.ts`. -/
def shouldQueueForRetry (error : EnhancedError) : Bool :=
  error.canRetry &&
    (error.type == .NETWORK_ERROR ||
     error.type == .TIMEOUT_ERROR ||
     error.type == .SERVER_ERROR)

/-! ### The network store (`useNetworkStore`) -/

/-- The four values of the `connectionQuality` union type of the network
store. -/
inductive ConnectionQuality where
  | excellent
  | good
  | poor
  | offline
deriving DecidableEq, Repr

/-- One `retryQueue` entry. The `request` closure is not data; drains consult
an outcome oracle `ok : String → Bool` indexed by `id` instead. `timestamp`
(a `Date` in the source) is a caller-supplied natural number. -/
structure RetryItem where
  id : String
  timestamp : Nat
  retryCount : Nat
deriving DecidableEq, Repr

/-- The state held by `useNetworkStore` (functions excluded). -/
structure NetworkStoreState where
  isConnected : Bool
  isInternetReachable : Option Bool
  connectionType : Option String
  isInitialized : Bool
  lastConnectedAt : Option Nat
  isSlowConnection : Bool
  connectionQuality : ConnectionQuality
  retryQueue : List RetryItem
deriving DecidableEq, Repr

/-- The initial store state (`isConnected: true` is the optimistic
default). -/
def initialState : NetworkStoreState :=
  { isConnected := true
    isInternetReachable := none
    connectionType := none
    isInitialized := false
    lastConnectedAt := none
    isSlowConnection := false
    connectionQuality := .excellent
    retryQueue := [] }

/-- `determineConnectionQuality` of the network store module. The
`connectionType` argument is `Option String`, `none` standing for `null`;
`if (!connectionType)` is JavaScript truthiness, so the empty string also
takes the early `'good'` return. -/
def determineConnectionQuality (isConnected : Bool) (isInternetReachable : Option Bool)
    (connectionType : Option String) : ConnectionQuality :=
  if !isConnected || isInternetReachable == some false then
    .offline
  else if !truthyStr connectionType then
    .good
  else
    let lowerType := lowerChars (connectionType.getD "")
    if listContains "wifi".toList lowerType || listContains "ethernet".toList lowerType then
      .excellent
    else if listContains "5g".toList lowerType || listContains "lte".toList lowerType ||
        listContains "4g".toList lowerType then
      .good
    else if listContains "3g".toList lowerType || listContains "2g".toList lowerType ||
        listContains "edge".toList lowerType || listContains "gprs".toList lowerType then
      .poor
    else if listContains "cellular".toList lowerType || listContains "mobile".toList lowerType then
      .good
    else
      .good

/-- The synchronous state update of `setConnectionStatus` (`now` models
`new Date()`; the deferred `processRetryQueue` call on reconnect is a
separate drain step). -/
def setConnectionStatus (st : NetworkStoreState) (isConnected : Bool)
    (isInternetReachable : Option Bool) (connectionType : Option String)
    (now : Nat) : NetworkStoreState :=
  let newQuality := determineConnectionQuality isConnected isInternetReachable connectionType
  { st with
    isConnected := isConnected
    isInternetReachable := isInternetReachable
    connectionType := connectionType
    lastConnectedAt := if isConnected then some now else st.lastConnectedAt
    isSlowConnection := newQuality == .poor
    connectionQuality := newQuality }

/-- `addToRetryQueue` of the network store: drop any entry with the same id,
then append a fresh entry with `retryCount` 0. -/
def addToRetryQueue (st : NetworkStoreState) (id : String) (now : Nat) : NetworkStoreState :=
  let filteredQueue := st.retryQueue.filter fun item => item.id != id
  { st with retryQueue := filteredQueue ++ [{ id := id, timestamp := now, retryCount := 0 }] }

/-- `removeFromRetryQueue` of the network store. -/
def removeFromRetryQueue (st : NetworkStoreState) (id : String) : NetworkStoreState :=
  { st with retryQueue := st.retryQueue.filter fun item => item.id != id }

/-- `clearRetryQueue` of the network store. -/
def clearRetryQueue (st : NetworkStoreState) : NetworkStoreState :=
  { st with retryQueue := [] }

/-- `{ ...queueItem, retryCount: queueItem.retryCount + 1 }` of the failure
path of `processItem`. -/
def bumpEntry (q : RetryItem) : RetryItem :=
  { q with retryCount := q.retryCount + 1 }

/-- The two queue rewrites of the failure path of `processItem`, verbatim:
`updatedQueue` bumps the `retryCount` of every entry whose id matches the
failed item, and the final queue keeps an entry unless it matches the failed
item and its bumped count is no longer below 3. -/
def failUpdate (x : String) (l : List RetryItem) : List RetryItem :=
  (l.map fun q => if q.id == x then bumpEntry q else q).filter fun q =>
    q.id != x || decide (q.retryCount < 3)

/-- `processItem` inside `processRetryQueue`: replay one snapshot item. On
success the entry is removed; on failure the queue goes through
`failUpdate`. -/
def processItem (ok : String → Bool) (st : NetworkStoreState) (item : RetryItem) :
    NetworkStoreState :=
  if ok item.id then
    removeFromRetryQueue st item.id
  else
    { st with retryQueue := failUpdate item.id st.retryQueue }

/-- `processRetryQueue` of the network store: a no-op when disconnected or
the queue is empty; otherwise every item of the entry snapshot of
`retryQueue` is replayed in order (the chunks of 3 settle before the next
chunk starts, and within a chunk the JavaScript turns of `processItem` run
one at a time, so the snapshot is processed item by item). -/
def processRetryQueue (ok : String → Bool) (st : NetworkStoreState) : NetworkStoreState :=
  if !st.isConnected || st.retryQueue.isEmpty then st
  else st.retryQueue.foldl (processItem ok) st

/-- The ids whose `request()` closures `processRetryQueue` invokes: none
when the guard returns early, otherwise every id of the snapshot. -/
def processRetryQueueInvoked (st : NetworkStoreState) : List String :=
  if !st.isConnected || st.retryQueue.isEmpty then []
  else st.retryQueue.map RetryItem.id

/-- `getRetryableRequests` of the network store. -/
def getRetryableRequests (st : NetworkStoreState) : List RetryItem :=
  st.retryQueue.filter fun request => decide (request.retryCount < 3)

/-- Observation helper: the sublist of queue entries carrying a given id
(in queue order). The queue "contains an id" exactly when this is
nonempty. -/
def entriesFor (y : String) (l : List RetryItem) : List RetryItem :=
  l.filter fun q => q.id == y

/-- One store transition: the queue actions, a drain with some outcome
oracle, or a connectivity update. -/
inductive Step : NetworkStoreState → NetworkStoreState → Prop where
  | add (st : NetworkStoreState) (id : String) (now : Nat) :
      Step st (addToRetryQueue st id now)
  | remove (st : NetworkStoreState) (id : String) :
      Step st (removeFromRetryQueue st id)
  | clear (st : NetworkStoreState) :
      Step st (clearRetryQueue st)
  | drain (st : NetworkStoreState) (ok : String → Bool) :
      Step st (processRetryQueue ok st)
  | connect (st : NetworkStoreState) (ic : Bool) (ir : Option Bool)
      (ct : Option String) (now : Nat) :
      Step st (setConnectionStatus st ic ir ct now)

/-- A store state reachable from the initial state through `Step`
transitions. -/
def Reachable (st : NetworkStoreState) : Prop :=
  Relation.ReflTransGen Step initialState st

/-! ### Concrete sample values used to instantiate the theorems -/

/-- A 401 axios failure carrying a response. -/
def err401 : JSError :=
  { isAxiosError := true
    response := some { status := some 401, data := .other }
    request := true
    message := some "Request failed with status code 401" }

/-- A 429 axios failure carrying a response. -/
def err429 : JSValue :=
  .obj { isAxiosError := true
         response := some { status := some 429, data := .other }
         request := true
         message := some "Request failed with status code 429" }

/-- A request-made/no-response failure whose message matches both a network
pattern and a timeout pattern. -/
def errNetTimeout : JSError :=
  { isAxiosError := false
    response := none
    request := true
    message := some "network error timeout" }

/-- A request-made/no-response failure whose message matches only timeout
patterns. -/
def errTimeoutOnly : JSError :=
  { isAxiosError := false
    response := none
    request := true
    message := some "timeout of 5000ms exceeded" }

/-- A non-axios error whose diagnostic message happens to equal the
user-friendly text for `UNKNOWN_ERROR`. -/
def errEchoMsg : JSValue :=
  .obj { isAxiosError := false
         response := none
         request := false
         message := some "An unexpected error occurred. Please try again." }

/-- A disconnected store state with one queued entry. -/
def sampleOfflineState : NetworkStoreState :=
  { initialState with
    isConnected := false
    retryQueue := [{ id := "tx-1", timestamp := 0, retryCount := 0 }] }

/-! ### Claim theorems: error classification helpers -/

/-- C4: `shouldQueueForRetry` holds exactly when `canRetry` is set and the
kind is `NETWORK_ERROR`, `TIMEOUT_ERROR` or `SERVER_ERROR`; every
`RATE_LIMIT_ERROR` descriptor is rejected, even the retryable one that
classifying a 429 response produces. -/
theorem shouldQueueForRetry_spec :
    (∀ d : EnhancedError, shouldQueueForRetry d = true ↔
      (d.canRetry = true ∧
        (d.type = .NETWORK_ERROR ∨ d.type = .TIMEOUT_ERROR ∨ d.type = .SERVER_ERROR)))
    ∧ (∀ d : EnhancedError, d.type = .RATE_LIMIT_ERROR → shouldQueueForRetry d = false)
    ∧ ((analyzeError err429 none).type = .RATE_LIMIT_ERROR
        ∧ (analyzeError err429 none).canRetry = true
        ∧ shouldQueueForRetry (analyzeError err429 none) = false) := by
  refine ⟨fun d => ?_, fun d h => ?_, by decide⟩
  · simp [shouldQueueForRetry, or_assoc]
  · simp [shouldQueueForRetry, h]

/-- C4 witness: the theorem applied to the descriptor of a concrete 429
response. -/
theorem shouldQueueForRetry_spec_witness :
    shouldQueueForRetry (analyzeError err429 none) = false :=
  shouldQueueForRetry_spec.2.1 (analyzeError err429 none) (by decide)

/-- C1: for a failure carrying a response with a status of 400 or above,
`analyzeError` maps the status to kind, severity and retryability exactly as
the specification's table says (the listed 5xx codes and every other status
at or above 500 coincide on `ServerError`/`High`/retryable). -/
theorem analyzeError_status_mapping (e : JSError) (r : JSResponse) (s : Nat)
    (ctx : Option ErrCtx) (hr : e.response = some r) (hs : r.status = some s)
    (h400 : 400 ≤ s) :
    ((analyzeError (.obj e) ctx).type, (analyzeError (.obj e) ctx).severity,
      (analyzeError (.obj e) ctx).canRetry) =
      (if s = 400 then (.VALIDATION_ERROR, .LOW, false)
       else if s = 401 then (.AUTHENTICATION_ERROR, .HIGH, false)
       else if s = 403 then (.AUTHORIZATION_ERROR, .MEDIUM, false)
       else if s = 404 then (.NOT_FOUND_ERROR, .LOW, false)
       else if s = 429 then (.RATE_LIMIT_ERROR, .MEDIUM, true)
       else if 500 ≤ s then (.SERVER_ERROR, .HIGH, true)
       else (.VALIDATION_ERROR, .LOW, false)) := by
  simp only [analyzeError, hr, Option.isSome_some, Bool.or_true, Bool.true_or,
    if_true, axiosAnalyze, hs, mkEnhanced]
  unfold respSwitch
  split_ifs <;> first | rfl | omega

/-- C1 witness: the theorem applied to a concrete 401 response. -/
theorem analyzeError_status_mapping_witness :
    ((analyzeError (.obj err401) none).type, (analyzeError (.obj err401) none).severity,
      (analyzeError (.obj err401) none).canRetry) =
      (.AUTHENTICATION_ERROR, .HIGH, false) := by
  have h := analyzeError_status_mapping err401 { status := some 401, data := .other } 401
    none rfl rfl (by decide)
  rw [h]
  decide

/-- C3 counterexample: a failure with a request, no response, and message
`"network error timeout"` contains `"timeout"` (case-insensitively), yet
`analyzeError` classifies it as `NETWORK_ERROR`, not `TIMEOUT_ERROR`: the
network-pattern check runs first. -/
theorem analyzeError_timeout_counterexample :
    errNetTimeout.request = true ∧ errNetTimeout.response = none
      ∧ listContains "timeout".toList (lowerChars (errNetTimeout.message.getD "")) = true
      ∧ (analyzeError (.obj errNetTimeout) none).type = .NETWORK_ERROR
      ∧ (analyzeError (.obj errNetTimeout) none).type ≠ .TIMEOUT_ERROR := by
  refine ⟨rfl, rfl, by decide, by decide, by decide⟩

/-- C3 amended: for a failure with a request but no response whose message
contains `"timeout"` in any letter case and matches none of the
network-error patterns, `analyzeError` returns kind `TIMEOUT_ERROR`. -/
theorem analyzeError_timeout_classification (e : JSError) (ctx : Option ErrCtx)
    (m : String) (hreq : e.request = true) (hresp : e.response = none)
    (hmsg : e.message = some m)
    (ht : listContains "timeout".toList (lowerChars m) = true)
    (hn : isNetworkError m = false) :
    (analyzeError (.obj e) ctx).type = .TIMEOUT_ERROR := by
  have htime : isTimeoutError m = true := by
    simp [isTimeoutError, TIMEOUT_ERROR_PATTERNS]
    exact Or.inl ht
  simp [analyzeError, hreq, hresp, axiosAnalyze, hmsg, hn, htime, mkEnhanced]

/-- C3 witness: the amended theorem applied to a concrete timeout-only
message. -/
theorem analyzeError_timeout_classification_witness :
    (analyzeError (.obj errTimeoutOnly) none).type = .TIMEOUT_ERROR :=
  analyzeError_timeout_classification errTimeoutOnly none "timeout of 5000ms exceeded"
    rfl rfl rfl (by decide) (by decide)

/-- Helper: the `switch` outcome is retryable exactly for the server-side
and rate-limit kinds, with the untouched `UNKNOWN_ERROR` default also
retryable. -/
theorem respSwitch_canRetry (s : Nat) :
    (respSwitch s).2.2 = true ↔
      ((respSwitch s).1 = .NETWORK_ERROR ∨ (respSwitch s).1 = .TIMEOUT_ERROR ∨
       (respSwitch s).1 = .SERVER_ERROR ∨ (respSwitch s).1 = .RATE_LIMIT_ERROR ∨
       (respSwitch s).1 = .UNKNOWN_ERROR) := by
  unfold respSwitch
  split_ifs <;> simp

/-- C2 counterexample: `analyzeError` on a `null` error (which matches no
pattern) returns kind `UNKNOWN_ERROR` with `canRetry = true`: the initial
`canRetry = true` default is never overwritten on the unknown path, so
`canRetry` is not restricted to the four kinds the claim lists. -/
theorem analyzeError_canRetry_counterexample :
    (analyzeError .null none).canRetry = true
      ∧ (analyzeError .null none).type = .UNKNOWN_ERROR := by
  decide

/-- C2 amended: for every input error and context, the returned descriptor
has `canRetry = true` exactly when its kind is one of `NETWORK_ERROR`,
`TIMEOUT_ERROR`, `SERVER_ERROR`, `RATE_LIMIT_ERROR` or `UNKNOWN_ERROR`; for
the remaining kinds (`AUTHENTICATION_ERROR`, `AUTHORIZATION_ERROR`,
`VALIDATION_ERROR`, `NOT_FOUND_ERROR`) `canRetry` is false. -/
theorem analyzeError_canRetry_kinds (v : JSValue) (ctx : Option ErrCtx) :
    (analyzeError v ctx).canRetry = true ↔
      ((analyzeError v ctx).type = .NETWORK_ERROR ∨
       (analyzeError v ctx).type = .TIMEOUT_ERROR ∨
       (analyzeError v ctx).type = .SERVER_ERROR ∨
       (analyzeError v ctx).type = .RATE_LIMIT_ERROR ∨
       (analyzeError v ctx).type = .UNKNOWN_ERROR) := by
  cases v with
  | obj e =>
    obtain ⟨ax, resp, req, msg⟩ := e
    simp only [analyzeError]
    split
    · cases resp with
      | none =>
        simp only [axiosAnalyze]
        split_ifs <;> simp [mkEnhanced]
      | some r =>
        obtain ⟨stt, da⟩ := r
        cases stt with
        | none => simp [axiosAnalyze, mkEnhanced]
        | some s => simpa [axiosAnalyze, mkEnhanced] using respSwitch_canRetry s
    · simp only [plainAnalyze]
      split_ifs <;> simp [mkEnhanced]
  | null =>
    simp only [analyzeError, plainAnalyze]
    split_ifs <;> simp [mkEnhanced]
  | undefined =>
    simp only [analyzeError, plainAnalyze]
    split_ifs <;> simp [mkEnhanced]
  | str s =>
    simp only [analyzeError, plainAnalyze]
    split_ifs <;> simp [mkEnhanced]

/-- Helper: every branch of `analyzeError` returns through the single
assembly point `mkEnhanced`. -/
theorem analyzeError_eq_mk (v : JSValue) (ctx : Option ErrCtx) :
    ∃ t sev m sc cr, analyzeError v ctx = mkEnhanced t sev m sc cr ctx := by
  cases v with
  | obj e =>
    obtain ⟨ax, resp, req, msg⟩ := e
    simp only [analyzeError]
    split
    · cases resp with
      | none =>
        simp only [axiosAnalyze]
        split_ifs <;> exact ⟨_, _, _, _, _, rfl⟩
      | some r =>
        obtain ⟨stt, da⟩ := r
        simp only [axiosAnalyze]
        exact ⟨_, _, _, _, _, rfl⟩
    · simp only [plainAnalyze]
      split_ifs <;> exact ⟨_, _, _, _, _, rfl⟩
  | null =>
    simp only [analyzeError, plainAnalyze]
    split_ifs <;> exact ⟨_, _, _, _, _, rfl⟩
  | undefined =>
    simp only [analyzeError, plainAnalyze]
    split_ifs <;> exact ⟨_, _, _, _, _, rfl⟩
  | str s =>
    simp only [analyzeError, plainAnalyze]
    split_ifs <;> exact ⟨_, _, _, _, _, rfl⟩

/-- Helper: no entry of the `USER_FRIENDLY_MESSAGES` table has an empty
message. -/
theorem userFriendly_message_nonempty (t : ErrorType) :
    (USER_FRIENDLY_MESSAGES t).message ≠ "" := by
  cases t <;> decide

/-- C10 counterexample: when a non-axios error's own message happens to
equal the `UNKNOWN_ERROR` table text, the returned `userMessage` coincides
with the raw diagnostic message, so the two strings are not always
distinct. -/
theorem analyzeError_userMessage_counterexample :
    (analyzeError errEchoMsg none).userMessage = (analyzeError errEchoMsg none).message
      ∧ (analyzeError errEchoMsg none).message
          = "An unexpected error occurred. Please try again." := by
  decide

/-- C10 amended: `analyzeError` is total over every modelled runtime input
(`null`, `undefined`, bare strings, and objects with any combination of
absent fields), and the returned `userMessage` always equals the
`USER_FRIENDLY_MESSAGES` entry keyed by the returned kind — a non-empty
user-facing text carried in a field separate from the raw diagnostic
message (the two strings can coincide textually when the raw message equals
the table entry). -/
theorem analyzeError_userMessage_total (v : JSValue) (ctx : Option ErrCtx) :
    (analyzeError v ctx).userMessage
        = (USER_FRIENDLY_MESSAGES (analyzeError v ctx).type).message
      ∧ (analyzeError v ctx).userMessage ≠ "" := by
  obtain ⟨t, sev, m, sc, cr, h⟩ := analyzeError_eq_mk v ctx
  rw [h]
  exact ⟨rfl, userFriendly_message_nonempty t⟩

/-! ### Helper lemmas on the retry queue -/

/-- Bumping an entry keeps its id. -/
theorem bumpEntry_id (q : RetryItem) : (bumpEntry q).id = q.id := rfl

/-- Removing an id leaves no entry with that id. -/
theorem entriesFor_filter_ne_self (x : String) (l : List RetryItem) :
    entriesFor x (l.filter fun q => q.id != x) = [] := by
  induction l with
  | nil => rfl
  | cons a l ih =>
    by_cases h : a.id = x
    · simp [entriesFor, List.filter_cons, h, ih]
    · simp [entriesFor, List.filter_cons, h, ih]

/-- Removing one id leaves the entries of every other id untouched. -/
theorem entriesFor_filter_ne (x y : String) (l : List RetryItem) (h : y ≠ x) :
    entriesFor y (l.filter fun q => q.id != x) = entriesFor y l := by
  induction l with
  | nil => rfl
  | cons a l ih =>
    by_cases h1 : a.id = x
    · simpa [entriesFor, List.filter_cons, h1, h, Ne.symm h] using ih
    · by_cases h2 : a.id = y
      · simpa [entriesFor, List.filter_cons, h1, h2, h, Ne.symm h] using ih
      · simpa [entriesFor, List.filter_cons, h1, h2] using ih

/-- The failure update leaves the entries of every other id untouched. -/
theorem entriesFor_failUpdate_ne (x y : String) (l : List RetryItem) (h : y ≠ x) :
    entriesFor y (failUpdate x l) = entriesFor y l := by
  induction l with
  | nil => rfl
  | cons a l ih =>
    by_cases h1 : a.id = x
    · by_cases h3 : a.retryCount + 1 < 3
      · simpa [entriesFor, failUpdate, List.filter_cons, h1, h3, bumpEntry,
          h, Ne.symm h] using ih
      · simpa [entriesFor, failUpdate, List.filter_cons, h1, h3, bumpEntry,
          h, Ne.symm h] using ih
    · by_cases h2 : a.id = y
      · simpa [entriesFor, failUpdate, List.filter_cons, h1, h2, h, Ne.symm h] using ih
      · simpa [entriesFor, failUpdate, List.filter_cons, h1, h2] using ih

/-- On the failed id, the failure update bumps each entry and keeps it only
while the bumped count stays below 3. -/
theorem entriesFor_failUpdate_self (x : String) (l : List RetryItem) :
    entriesFor x (failUpdate x l) =
      ((entriesFor x l).map bumpEntry).filter fun q => decide (q.retryCount < 3) := by
  induction l with
  | nil => rfl
  | cons a l ih =>
    by_cases h1 : a.id = x
    · by_cases h3 : a.retryCount + 1 < 3
      · simpa [entriesFor, failUpdate, List.filter_cons, h1, h3, bumpEntry] using ih
      · simpa [entriesFor, failUpdate, List.filter_cons, h1, h3, bumpEntry] using ih
    · simpa [entriesFor, failUpdate, List.filter_cons, h1] using ih

/-- `processItem` does not touch the connectivity flag. -/
theorem processItem_isConnected (ok : String → Bool) (st : NetworkStoreState)
    (item : RetryItem) : (processItem ok st item).isConnected = st.isConnected := by
  unfold processItem removeFromRetryQueue
  split <;> rfl

/-- `processItem` leaves the entries of every id other than the replayed one
untouched. -/
theorem processItem_entriesFor_ne (ok : String → Bool) (st : NetworkStoreState)
    (item : RetryItem) (y : String) (h : y ≠ item.id) :
    entriesFor y (processItem ok st item).retryQueue = entriesFor y st.retryQueue := by
  unfold processItem removeFromRetryQueue
  split
  · exact entriesFor_filter_ne item.id y _ h
  · exact entriesFor_failUpdate_ne item.id y _ h

/-- A successful replay removes every entry with the replayed id. -/
theorem processItem_entriesFor_success (ok : String → Bool) (st : NetworkStoreState)
    (item : RetryItem) (h : ok item.id = true) :
    entriesFor item.id (processItem ok st item).retryQueue = [] := by
  unfold processItem removeFromRetryQueue
  rw [if_pos h]
  exact entriesFor_filter_ne_self item.id st.retryQueue

/-- A failed replay bumps the entries with the replayed id, evicting those
whose bumped count is no longer below 3. -/
theorem processItem_entriesFor_fail (ok : String → Bool) (st : NetworkStoreState)
    (item : RetryItem) (h : ok item.id = false) :
    entriesFor item.id (processItem ok st item).retryQueue =
      ((entriesFor item.id st.retryQueue).map bumpEntry).filter
        fun q => decide (q.retryCount < 3) := by
  unfold processItem
  rw [if_neg (by simp [h])]
  exact entriesFor_failUpdate_self item.id st.retryQueue

/-- Folding `processItem` over items of other ids leaves a given id's
entries untouched. -/
theorem foldl_processItem_entriesFor (ok : String → Bool) (y : String) :
    ∀ (l : List RetryItem) (st : NetworkStoreState), (∀ j ∈ l, j.id ≠ y) →
      entriesFor y ((l.foldl (processItem ok) st)).retryQueue =
        entriesFor y st.retryQueue := by
  intro l
  induction l with
  | nil => intro st _; rfl
  | cons a l ih =>
    intro st h
    rw [List.foldl_cons, ih _ fun j hj => h j (List.mem_cons_of_mem a hj)]
    exact processItem_entriesFor_ne ok st a y
      fun hy => (h a (List.mem_cons_self a l)) hy.symm

/-- Folding `processItem` does not touch the connectivity flag. -/
theorem foldl_processItem_isConnected (ok : String → Bool) :
    ∀ (l : List RetryItem) (st : NetworkStoreState),
      ((l.foldl (processItem ok) st)).isConnected = st.isConnected := by
  intro l
  induction l with
  | nil => intro st; rfl
  | cons a l ih => intro st; rw [List.foldl_cons, ih, processItem_isConnected]

/-- A drain does not touch the connectivity flag. -/
theorem processRetryQueue_isConnected (ok : String → Bool) (st : NetworkStoreState) :
    (processRetryQueue ok st).isConnected = st.isConnected := by
  unfold processRetryQueue
  split
  · rfl
  · exact foldl_processItem_isConnected ok st.retryQueue st

/-- Filtering a queue keeps its id list duplicate-free. -/
theorem nodup_ids_filter (p : RetryItem → Bool) (l : List RetryItem)
    (h : (l.map RetryItem.id).Nodup) : ((l.filter p).map RetryItem.id).Nodup :=
  h.sublist ((l.filter_sublist).map RetryItem.id)

/-- The id list of the failure update is a sublist of the original id
list. -/
theorem ids_failUpdate_sublist (x : String) (l : List RetryItem) :
    ((failUpdate x l).map RetryItem.id).Sublist (l.map RetryItem.id) := by
  have h1 : (failUpdate x l).Sublist
      (l.map fun q => if q.id == x then bumpEntry q else q) :=
    List.filter_sublist _
  have h2 := h1.map RetryItem.id
  rw [List.map_map] at h2
  have h3 : (l.map (RetryItem.id ∘ fun q => if q.id == x then bumpEntry q else q))
      = l.map RetryItem.id := by
    apply List.map_congr_left
    intro a _
    by_cases hq : a.id = x <;> simp [hq, bumpEntry]
  rwa [h3] at h2

/-- `processItem` keeps the id list duplicate-free. -/
theorem nodup_processItem (ok : String → Bool) (st : NetworkStoreState)
    (item : RetryItem) (h : (st.retryQueue.map RetryItem.id).Nodup) :
    ((processItem ok st item).retryQueue.map RetryItem.id).Nodup := by
  unfold processItem removeFromRetryQueue
  split
  · exact nodup_ids_filter _ _ h
  · exact h.sublist (ids_failUpdate_sublist item.id st.retryQueue)

/-- Folding `processItem` keeps the id list duplicate-free. -/
theorem nodup_foldl_processItem (ok : String → Bool) :
    ∀ (l : List RetryItem) (st : NetworkStoreState),
      (st.retryQueue.map RetryItem.id).Nodup →
      (((l.foldl (processItem ok) st)).retryQueue.map RetryItem.id).Nodup := by
  intro l
  induction l with
  | nil => intro st h; exact h
  | cons a l ih =>
    intro st h
    rw [List.foldl_cons]
    exact ih _ (nodup_processItem ok st a h)

/-- A drain keeps the id list duplicate-free. -/
theorem nodup_processRetryQueue (ok : String → Bool) (st : NetworkStoreState)
    (h : (st.retryQueue.map RetryItem.id).Nodup) :
    ((processRetryQueue ok st).retryQueue.map RetryItem.id).Nodup := by
  unfold processRetryQueue
  split
  · exact h
  · exact nodup_foldl_processItem ok st.retryQueue st h

/-- Enqueueing keeps the id list duplicate-free. -/
theorem nodup_addToRetryQueue (st : NetworkStoreState) (id : String) (now : Nat)
    (h : (st.retryQueue.map RetryItem.id).Nodup) :
    ((addToRetryQueue st id now).retryQueue.map RetryItem.id).Nodup := by
  unfold addToRetryQueue
  simp only [List.map_append, List.map_cons, List.map_nil]
  rw [List.nodup_append]
  refine ⟨nodup_ids_filter _ _ h, List.nodup_singleton id, ?_⟩
  intro a ha hmem
  simp only [List.mem_map] at ha
  obtain ⟨q, hq, rfl⟩ := ha
  have hne := List.of_mem_filter hq
  simp only [List.mem_singleton] at hmem
  rw [hmem] at hne
  simp at hne

/-- In a duplicate-free queue, the entries carrying the id of a member are
exactly that member. -/
theorem entriesFor_of_nodup :
    ∀ (l : List RetryItem) (e : RetryItem), (l.map RetryItem.id).Nodup → e ∈ l →
      entriesFor e.id l = [e] := by
  intro l
  induction l with
  | nil => intro e _ he; cases he
  | cons a l ih =>
    intro e hnd he
    rw [List.map_cons, List.nodup_cons] at hnd
    obtain ⟨hna, hnd⟩ := hnd
    rcases List.mem_cons.mp he with rfl | he'
    · have hrest : entriesFor e.id l = [] := by
        refine List.filter_eq_nil_iff.mpr fun q hq h => ?_
        rw [beq_iff_eq] at h
        exact hna (h ▸ List.mem_map_of_mem RetryItem.id hq)
      simpa [entriesFor, List.filter_cons] using hrest
    · have hne : (a.id == e.id) = false := by
        rw [beq_eq_false_iff_ne]
        exact fun hh => hna (hh ▸ List.mem_map_of_mem RetryItem.id he')
      simpa [entriesFor, List.filter_cons, hne] using ih e hnd he'

/-- An id whose entry list is a singleton has that entry in the queue. -/
theorem mem_of_entriesFor_singleton (l : List RetryItem) (e : RetryItem) (y : String)
    (h : entriesFor y l = [e]) : e ∈ l := by
  have hmem : e ∈ entriesFor y l := by rw [h]; exact List.mem_singleton_self e
  exact List.mem_of_mem_filter hmem

/-- Fate of one queue entry across a drain that actually runs: removal on
success; on failure, a bump, kept only while the bumped count stays below
3. -/
theorem drain_entry_fate (ok : String → Bool) (st : NetworkStoreState) (e : RetryItem)
    (hc : st.isConnected = true) (hnd : (st.retryQueue.map RetryItem.id).Nodup)
    (he : e ∈ st.retryQueue) :
    entriesFor e.id (processRetryQueue ok st).retryQueue =
      (if ok e.id then [] else if e.retryCount + 1 < 3 then [bumpEntry e] else []) := by
  obtain ⟨l₁, l₂, hsplit⟩ := List.append_of_mem he
  have hne : st.retryQueue ≠ [] := List.ne_nil_of_mem he
  unfold processRetryQueue
  rw [if_neg (by simp [hc, hne])]
  have hids : ((l₁ ++ e :: l₂).map RetryItem.id).Nodup := by rw [← hsplit]; exact hnd
  rw [List.map_append, List.map_cons, List.nodup_append] at hids
  obtain ⟨hids₁, hids₂, hdisj⟩ := hids
  rw [List.nodup_cons] at hids₂
  have h₁ : ∀ j ∈ l₁, j.id ≠ e.id := by
    intro j hj hjeq
    exact hdisj (List.mem_map_of_mem RetryItem.id hj) (by rw [hjeq]; exact List.mem_cons_self _ _)
  have h₂ : ∀ j ∈ l₂, j.id ≠ e.id := by
    intro j hj hjeq
    exact hids₂.1 (hjeq ▸ List.mem_map_of_mem RetryItem.id hj)
  have hfirst : entriesFor e.id ((l₁.foldl (processItem ok) st)).retryQueue = [e] := by
    rw [foldl_processItem_entriesFor ok e.id l₁ st h₁]
    exact entriesFor_of_nodup st.retryQueue e hnd he
  rw [hsplit, List.foldl_append, List.foldl_cons,
    foldl_processItem_entriesFor ok e.id l₂ _ h₂]
  cases hok : ok e.id with
  | true =>
    rw [processItem_entriesFor_success ok _ e hok]
    simp
  | false =>
    rw [processItem_entriesFor_fail ok _ e hok, hfirst]
    by_cases h3 : e.retryCount + 1 < 3
    · simp [h3, bumpEntry]
    · simp [h3, bumpEntry]

/-- Every entry a reachable queue holds has `retryCount` below 3:
preservation through `processItem`. -/
theorem counts_processItem (ok : String → Bool) (st : NetworkStoreState)
    (item : RetryItem) (h : ∀ e ∈ st.retryQueue, e.retryCount < 3) :
    ∀ e ∈ (processItem ok st item).retryQueue, e.retryCount < 3 := by
  unfold processItem removeFromRetryQueue
  split
  · intro e he
    exact h e (List.mem_of_mem_filter he)
  · intro e he
    unfold failUpdate at he
    rw [List.mem_filter] at he
    obtain ⟨hm, hg⟩ := he
    rw [List.mem_map] at hm
    obtain ⟨a, ha, rfl⟩ := hm
    by_cases h2 : a.id = item.id
    · rw [if_pos (by simp [h2])] at hg ⊢
      have : ((bumpEntry a).id != item.id) = false := by simp [bumpEntry, h2]
      rw [this, Bool.false_or, decide_eq_true_eq] at hg
      exact hg
    · rw [if_neg (by simp [h2])] at hg ⊢
      exact h a ha

/-- Count bound preservation through a fold of `processItem`. -/
theorem counts_foldl_processItem (ok : String → Bool) :
    ∀ (l : List RetryItem) (st : NetworkStoreState),
      (∀ e ∈ st.retryQueue, e.retryCount < 3) →
      ∀ e ∈ ((l.foldl (processItem ok) st)).retryQueue, e.retryCount < 3 := by
  intro l
  induction l with
  | nil => intro st h; exact h
  | cons a l ih =>
    intro st h
    rw [List.foldl_cons]
    exact ih _ (counts_processItem ok st a h)

/-- Count bound preservation through a drain. -/
theorem counts_processRetryQueue (ok : String → Bool) (st : NetworkStoreState)
    (h : ∀ e ∈ st.retryQueue, e.retryCount < 3) :
    ∀ e ∈ (processRetryQueue ok st).retryQueue, e.retryCount < 3 := by
  unfold processRetryQueue
  split
  · exact h
  · exact counts_foldl_processItem ok st.retryQueue st h

/-- Count bound preservation through an enqueue. -/
theorem counts_addToRetryQueue (st : NetworkStoreState) (id : String) (now : Nat)
    (h : ∀ e ∈ st.retryQueue, e.retryCount < 3) :
    ∀ e ∈ (addToRetryQueue st id now).retryQueue, e.retryCount < 3 := by
  unfold addToRetryQueue
  intro e he
  rcases List.mem_append.mp he with he' | he'
  · exact h e (List.mem_of_mem_filter he')
  · rw [List.mem_singleton] at he'
    rw [he']
    simp

/-- Enqueueing ends with exactly one entry for the enqueued id, with a fresh
count of 0. -/
theorem entriesFor_addToRetryQueue (st : NetworkStoreState) (id : String) (now : Nat) :
    entriesFor id (addToRetryQueue st id now).retryQueue =
      [{ id := id, timestamp := now, retryCount := 0 }] := by
  have h0 := entriesFor_filter_ne_self id st.retryQueue
  unfold entriesFor at h0
  unfold addToRetryQueue entriesFor
  rw [List.filter_append, h0]
  simp

/-- One failing drain step on a present entry whose bumped count stays
below 3: the entry survives with the bumped count. -/
theorem drain_fail_step (ok : String → Bool) (st : NetworkStoreState) (id : String)
    (ts c : Nat) (hc : st.isConnected = true)
    (hnd : (st.retryQueue.map RetryItem.id).Nodup)
    (he : ({ id := id, timestamp := ts, retryCount := c } : RetryItem) ∈ st.retryQueue)
    (hok : ok id = false) (hcnt : c + 1 < 3) :
    entriesFor id (processRetryQueue ok st).retryQueue =
      [{ id := id, timestamp := ts, retryCount := c + 1 }] := by
  have h := drain_entry_fate ok st { id := id, timestamp := ts, retryCount := c } hc hnd he
  simpa [hok, hcnt, bumpEntry] using h

/-- One failing drain step on a present entry whose bumped count reaches 3:
the entry is evicted. -/
theorem drain_fail_last (ok : String → Bool) (st : NetworkStoreState) (id : String)
    (ts c : Nat) (hc : st.isConnected = true)
    (hnd : (st.retryQueue.map RetryItem.id).Nodup)
    (he : ({ id := id, timestamp := ts, retryCount := c } : RetryItem) ∈ st.retryQueue)
    (hok : ok id = false) (hcnt : ¬c + 1 < 3) :
    entriesFor id (processRetryQueue ok st).retryQueue = [] := by
  have h := drain_entry_fate ok st { id := id, timestamp := ts, retryCount := c } hc hnd he
  simpa [hok, hcnt, bumpEntry] using h

/-! ### Claim theorems: the network store -/

/-- C5: during a drain on a connected store with a duplicate-free queue, a
replayed entry is removed on success, and on failure survives with its
`retryCount` incremented exactly when the incremented count stays below 3
(otherwise it is evicted); consequently an entry enqueued with count 0
whose operation fails in 3 consecutive drains is gone after the 3rd
failure. -/
theorem processRetryQueue_entry_fate :
    (∀ (ok : String → Bool) (st : NetworkStoreState) (e : RetryItem),
        st.isConnected = true →
        (st.retryQueue.map RetryItem.id).Nodup →
        e ∈ st.retryQueue →
        entriesFor e.id (processRetryQueue ok st).retryQueue =
          (if ok e.id then [] else if e.retryCount + 1 < 3 then [bumpEntry e] else []))
    ∧ (∀ (st : NetworkStoreState) (id : String) (now : Nat) (ok1 ok2 ok3 : String → Bool),
        st.isConnected = true →
        (st.retryQueue.map RetryItem.id).Nodup →
        ok1 id = false → ok2 id = false → ok3 id = false →
        entriesFor id (processRetryQueue ok3 (processRetryQueue ok2 (processRetryQueue ok1
          (addToRetryQueue st id now)))).retryQueue = []) := by
  refine ⟨fun ok st e hc hnd he => drain_entry_fate ok st e hc hnd he, ?_⟩
  intro st id now ok1 ok2 ok3 hc hnd h1 h2 h3
  have hnd1 := nodup_addToRetryQueue st id now hnd
  have he1 : ({ id := id, timestamp := now, retryCount := 0 } : RetryItem)
      ∈ (addToRetryQueue st id now).retryQueue :=
    List.mem_append_right _ (List.mem_singleton_self _)
  have hd1 := drain_fail_step ok1 (addToRetryQueue st id now) id now 0 hc hnd1 he1 h1
    (by norm_num)
  have hc2 : (processRetryQueue ok1 (addToRetryQueue st id now)).isConnected = true := by
    rw [processRetryQueue_isConnected]; exact hc
  have hnd2 := nodup_processRetryQueue ok1 (addToRetryQueue st id now) hnd1
  have he2 := mem_of_entriesFor_singleton _ _ _ hd1
  have hd2 := drain_fail_step ok2 _ id now 1 hc2 hnd2 he2 h2 (by norm_num)
  have hc3 : (processRetryQueue ok2 (processRetryQueue ok1
      (addToRetryQueue st id now))).isConnected = true := by
    rw [processRetryQueue_isConnected]; exact hc2
  have hnd3 := nodup_processRetryQueue ok2 _ hnd2
  have he3 := mem_of_entriesFor_singleton _ _ _ hd2
  exact drain_fail_last ok3 _ id now 2 hc3 hnd3 he3 h3 (by norm_num)

/-- C5 witness: the theorem's eviction scenario at a concrete id with three
always-failing drains. -/
theorem processRetryQueue_entry_fate_witness :
    entriesFor "a" (processRetryQueue (fun _ => false) (processRetryQueue (fun _ => false)
      (processRetryQueue (fun _ => false) (addToRetryQueue initialState "a" 0)))).retryQueue
      = [] :=
  processRetryQueue_entry_fate.2 initialState "a" 0 (fun _ => false) (fun _ => false)
    (fun _ => false) rfl (by simp [initialState]) rfl rfl rfl

/-- C6: every reachable queue state has pairwise distinct entry ids;
`addToRetryQueue` replaces any existing entry of the id with a single fresh
entry carrying `retryCount` 0, so enqueueing the same id twice resets its
count to 0 (with the later timestamp). -/
theorem retryQueue_unique_ids :
    (∀ st : NetworkStoreState, Reachable st → (st.retryQueue.map RetryItem.id).Nodup)
    ∧ (∀ (st : NetworkStoreState) (id : String) (now : Nat),
        entriesFor id (addToRetryQueue st id now).retryQueue
          = [{ id := id, timestamp := now, retryCount := 0 }])
    ∧ (∀ (st : NetworkStoreState) (id : String) (now now' : Nat),
        entriesFor id (addToRetryQueue (addToRetryQueue st id now) id now').retryQueue
          = [{ id := id, timestamp := now', retryCount := 0 }]) := by
  refine ⟨?_, fun st id now => entriesFor_addToRetryQueue st id now,
    fun st id now now' => entriesFor_addToRetryQueue _ id now'⟩
  intro st h
  induction h with
  | refl => simp [initialState]
  | tail _ hstep ih =>
    cases hstep with
    | add id now => exact nodup_addToRetryQueue _ id now ih
    | remove id => exact nodup_ids_filter _ _ ih
    | clear => simp [clearRetryQueue]
    | drain ok => exact nodup_processRetryQueue ok _ ih
    | connect ic ir ct now => exact ih

/-- C6 witness: the theorem applied at the initial state and at a concrete
double enqueue of the same id. -/
theorem retryQueue_unique_ids_witness :
    (initialState.retryQueue.map RetryItem.id).Nodup
      ∧ entriesFor "a" (addToRetryQueue (addToRetryQueue initialState "a" 1) "a" 2).retryQueue
          = [{ id := "a", timestamp := 2, retryCount := 0 }] :=
  ⟨retryQueue_unique_ids.1 initialState Relation.ReflTransGen.refl,
    retryQueue_unique_ids.2.2 initialState "a" 1 2⟩

/-- C9: in every reachable store state all queue entries have `retryCount`
strictly below 3, so `getRetryableRequests` (which filters on
`retryCount < 3`) returns the whole queue. -/
theorem retryQueue_counts_bounded :
    ∀ st : NetworkStoreState, Reachable st →
      (∀ e ∈ st.retryQueue, e.retryCount < 3)
        ∧ getRetryableRequests st = st.retryQueue := by
  intro st h
  have hcounts : ∀ e ∈ st.retryQueue, e.retryCount < 3 := by
    induction h with
    | refl => intro e he; simp [initialState] at he
    | tail _ hstep ih =>
      cases hstep with
      | add id now => exact counts_addToRetryQueue _ id now ih
      | remove id => exact fun e he => ih e (List.mem_of_mem_filter he)
      | clear => intro e he; simp [clearRetryQueue] at he
      | drain ok => exact counts_processRetryQueue ok _ ih
      | connect ic ir ct now => exact ih
  refine ⟨hcounts, ?_⟩
  unfold getRetryableRequests
  refine List.filter_eq_self.mpr fun e he => ?_
  simpa using hcounts e he

/-- C9 witness: the theorem applied to the reachable state holding one
freshly enqueued entry. -/
theorem retryQueue_counts_bounded_witness :
    getRetryableRequests (addToRetryQueue initialState "a" 0)
      = (addToRetryQueue initialState "a" 0).retryQueue :=
  (retryQueue_counts_bounded (addToRetryQueue initialState "a" 0)
    (Relation.ReflTransGen.single (Step.add initialState "a" 0))).2

/-- C7: when the store is disconnected or the retry queue is empty, a drain
leaves the whole store state untouched and invokes none of the queued
request closures. -/
theorem processRetryQueue_noop (ok : String → Bool) (st : NetworkStoreState)
    (h : st.isConnected = false ∨ st.retryQueue = []) :
    processRetryQueue ok st = st ∧ processRetryQueueInvoked st = [] := by
  have hguard : (!st.isConnected || st.retryQueue.isEmpty) = true := by
    rcases h with h | h <;> simp [h]
  constructor
  · simp [processRetryQueue, hguard]
  · simp [processRetryQueueInvoked, hguard]

/-- C7 witness: the theorem applied to a concrete disconnected state with a
nonempty queue. -/
theorem processRetryQueue_noop_witness :
    processRetryQueue (fun _ => true) sampleOfflineState = sampleOfflineState
      ∧ processRetryQueueInvoked sampleOfflineState = [] :=
  processRetryQueue_noop (fun _ => true) sampleOfflineState (Or.inl rfl)

/-- C8: `determineConnectionQuality` returns `offline` whenever
`isConnected` is false or `isInternetReachable` is explicitly false,
whatever the `connectionType` argument is. -/
theorem determineConnectionQuality_offline (ic : Bool) (ir : Option Bool)
    (ct : Option String) (h : ic = false ∨ ir = some false) :
    determineConnectionQuality ic ir ct = .offline := by
  rcases h with h | h <;> simp [determineConnectionQuality, h]

/-- C8 witness: the theorem applied to
`determineConnectionQuality(false, null, "wifi")`. -/
theorem determineConnectionQuality_offline_witness :
    determineConnectionQuality false none (some "wifi") = .offline :=
  determineConnectionQuality_offline false none (some "wifi") (Or.inl rfl)

end Perksmania
